import Mathlib

/-!
# Verification of the video-generator pipeline

A shallow embedding of the video-generation service (`app.py`,
`video_generator_migration.py`) and proofs about its behaviour: the
image center-crop geometry, the duration-probe fallback and the dynamic
encoder timeout, the ffmpeg audio-mix command construction, the
temporary-file cleanup discipline of `create_vertical_video`, the job
identifier scheme and the job-status state machine of the HTTP layer.

Python integers are embedded as `ℤ`, Python floats as `ℚ` (the pipeline
only performs exact decimal arithmetic on them), Python `//` as
`Int.fdiv` (floor division) and Python `int(...)` applied to a float as
truncation toward zero (`pyTrunc`).
-/

set_option autoImplicit false

namespace VideoGen

/-- Python `int(x)` on a float/rational: truncation toward zero. -/
def pyTrunc (q : ℚ) : ℤ :=
  if 0 ≤ q then ⌊q⌋ else ⌈q⌉

/-- Python `a % b` on integers (sign follows the divisor; for the positive
divisors used here it agrees with `Int.emod`). -/
def pyMod (a b : ℤ) : ℤ := a.emod b

/-! ## Frame compositor (`process_image_for_vertical_video`, lines 31–70)

The geometric core of `process_image_for_vertical_video`: given the
decoded image size `(original_width, original_height)` and the target
size `(target_width, target_height)`, the code computes a crop box
`(left, upper, right, lower)` (PIL convention) and then resizes the
cropped region to exactly `(target_width, target_height)`. -/

/-- The crop box computed by `process_image_for_vertical_video`
(lines 45–56): compare `original_ratio` with `target_ratio`, crop the
wider axis, centering with Python floor division `// 2`. -/
def crop_box (original_width original_height target_width target_height : ℤ) :
    ℤ × ℤ × ℤ × ℤ :=
  let target_ratio : ℚ := (target_width : ℚ) / (target_height : ℚ)
  let original_ratio : ℚ := (original_width : ℚ) / (original_height : ℚ)
  if original_ratio > target_ratio then
    -- Image is wider than target ratio - crop width
    let new_height := original_height
    let new_width := pyTrunc ((new_height : ℚ) * target_ratio)
    let left := (original_width - new_width).fdiv 2
    (left, 0, left + new_width, new_height)
  else
    -- Image is taller than target ratio - crop height
    let new_width := original_width
    let new_height := pyTrunc ((new_width : ℚ) / target_ratio)
    let top := (original_height - new_height).fdiv 2
    (0, top, new_width, top + new_height)

/-- `process_image_for_vertical_video` at the level of geometry: the crop
box applied to the original image, followed by the unconditional resize to
the target dimensions (line 59). -/
def process_image_for_vertical_video
    (original_width original_height target_width target_height : ℤ) :
    (ℤ × ℤ × ℤ × ℤ) × (ℤ × ℤ) :=
  (crop_box original_width original_height target_width target_height,
   (target_width, target_height))

/-! ## Encode planner: timeout computation (lines 118–120) -/

/-- `timeout_seconds = int(300 + (audio_duration / 60) * 20)` (line 119). -/
def timeout_seconds (audio_duration : ℚ) : ℤ :=
  pyTrunc (300 + (audio_duration / 60) * 20)

/-! ## Helper lemmas -/

lemma pyTrunc_eq_floor {q : ℚ} (h : 0 ≤ q) : pyTrunc q = ⌊q⌋ := by
  unfold pyTrunc; rw [if_pos h]

lemma pyTrunc_nonneg {q : ℚ} (h : 0 ≤ q) : 0 ≤ pyTrunc q := by
  rw [pyTrunc_eq_floor h]; exact Int.floor_nonneg.mpr h

lemma fdiv_two_nonneg {d : ℤ} (h : 0 ≤ d) : 0 ≤ d.fdiv 2 := by
  rw [Int.fdiv_eq_ediv _ (by norm_num)]
  exact Int.ediv_nonneg h (by norm_num)

lemma fdiv_two_le {d : ℤ} (h : 0 ≤ d) : d.fdiv 2 ≤ d := by
  rw [Int.fdiv_eq_ediv _ (by norm_num)]
  exact Int.ediv_le_self 2 h

/-- Splitting a nonnegative trim `d` as `d.fdiv 2` on one side leaves
`d - 2 * (d.fdiv 2) = d % 2 ∈ {0, 1}` extra pixels on the other side. -/
lemma fdiv_two_margin (d : ℤ) :
    (d - d.fdiv 2) - d.fdiv 2 = d % 2 ∧ 0 ≤ d % 2 ∧ d % 2 ≤ 1 := by
  rw [Int.fdiv_eq_ediv _ (by norm_num)]
  omega

/-- In the wide branch, `new_width = int(original_height * target_ratio)`
is strictly below `original_width`. -/
lemma new_width_lt {ow oh tw th : ℤ} (hoh : 0 < oh) (htw : 0 < tw) (hth : 0 < th)
    (hgt : (tw : ℚ) / th < (ow : ℚ) / oh) :
    pyTrunc ((oh : ℚ) * ((tw : ℚ) / th)) < ow := by
  have hq : (0 : ℚ) ≤ (oh : ℚ) * ((tw : ℚ) / th) := by positivity
  rw [pyTrunc_eq_floor hq]
  rw [Int.floor_lt]
  have h1 : (oh : ℚ) * ((tw : ℚ) / th) < (oh : ℚ) * ((ow : ℚ) / oh) :=
    mul_lt_mul_of_pos_left hgt (by exact_mod_cast hoh)
  have h2 : (oh : ℚ) * ((ow : ℚ) / oh) = (ow : ℚ) := by
    field_simp
  rw [h2] at h1; exact h1

/-- In the tall branch, `new_height = int(original_width / target_ratio)`
is at most `original_height`. -/
lemma new_height_le {ow oh tw th : ℤ} (how : 0 < ow) (hoh : 0 < oh) (htw : 0 < tw)
    (hth : 0 < th) (hle : ¬ ((tw : ℚ) / th < (ow : ℚ) / oh)) :
    pyTrunc ((ow : ℚ) / ((tw : ℚ) / th)) ≤ oh := by
  push_neg at hle
  have hq : (0 : ℚ) ≤ (ow : ℚ) / ((tw : ℚ) / th) := by positivity
  rw [pyTrunc_eq_floor hq]
  have hx : (ow : ℚ) / ((tw : ℚ) / th) ≤ (oh : ℚ) := by
    rw [div_le_iff₀ (by positivity)]
    calc (ow : ℚ) = (oh : ℚ) * ((ow : ℚ) / oh) := by field_simp
    _ ≤ (oh : ℚ) * ((tw : ℚ) / th) :=
        mul_le_mul_of_nonneg_left hle (by positivity)
  calc ⌊(ow : ℚ) / ((tw : ℚ) / th)⌋ ≤ ⌊(oh : ℚ)⌋ := Int.floor_le_floor hx
  _ = oh := Int.floor_intCast oh

/-- The width kept by the horizontal-crop branch:
`new_width = int(new_height * target_ratio)` with `new_height = original_height`
(lines 47–48). -/
def wide_new_width (original_height target_width target_height : ℤ) : ℤ :=
  pyTrunc ((original_height : ℚ) * ((target_width : ℚ) / (target_height : ℚ)))

/-- The height kept by the vertical-crop branch:
`new_height = int(new_width / target_ratio)` with `new_width = original_width`
(lines 53–54). -/
def tall_new_height (original_width target_width target_height : ℤ) : ℤ :=
  pyTrunc ((original_width : ℚ) / ((target_width : ℚ) / (target_height : ℚ)))

lemma crop_box_wide {ow oh tw th : ℤ}
    (hgt : (tw : ℚ) / th < (ow : ℚ) / oh) :
    crop_box ow oh tw th =
      ((ow - wide_new_width oh tw th).fdiv 2, 0,
       (ow - wide_new_width oh tw th).fdiv 2 + wide_new_width oh tw th, oh) := by
  simp only [crop_box, wide_new_width, gt_iff_lt]
  rw [if_pos hgt]

lemma crop_box_tall {ow oh tw th : ℤ}
    (hle : ¬ ((tw : ℚ) / th < (ow : ℚ) / oh)) :
    crop_box ow oh tw th =
      (0, (oh - tall_new_height ow tw th).fdiv 2, ow,
       (oh - tall_new_height ow tw th).fdiv 2 + tall_new_height ow tw th) := by
  simp only [crop_box, tall_new_height, gt_iff_lt]
  rw [if_neg hle]

/-! ## Claims about the frame compositor and the encode planner -/

/-- **C3.** For every probed audio duration `d ≥ 0`, the encoder timeout
computed by the pipeline equals `⌊300 + (d / 60) * 20⌋` seconds; in
particular `d = 60` gives 320, `d = 0` gives 300 and `d = 600` gives 500. -/
theorem timeout_seconds_spec (d : ℚ) (hd : 0 ≤ d) :
    timeout_seconds d = ⌊300 + (d / 60) * 20⌋ ∧
    timeout_seconds 60 = 320 ∧ timeout_seconds 0 = 300 ∧
    timeout_seconds 600 = 500 := by
  refine ⟨?_, by norm_num [timeout_seconds, pyTrunc],
    by norm_num [timeout_seconds, pyTrunc], by norm_num [timeout_seconds, pyTrunc]⟩
  unfold timeout_seconds
  exact pyTrunc_eq_floor (by positivity)

/-- Witness for C3: instantiation at `d = 37/10` (a 3.7-second clip). -/
theorem timeout_seconds_spec_witness :
    (0 : ℚ) ≤ 37 / 10 ∧
    (timeout_seconds (37 / 10) = ⌊(300 : ℚ) + ((37 / 10) / 60) * 20⌋ ∧
      timeout_seconds 60 = 320 ∧ timeout_seconds 0 = 300 ∧
      timeout_seconds 600 = 500) :=
  ⟨by norm_num, timeout_seconds_spec (37 / 10) (by norm_num)⟩

/-- **C4 (counterexample).** For a 1000×999 source and a 1080×1920 target the
ratio test selects the horizontal-crop branch, yet the code trims 219 pixels
from the left and 220 from the right — the margins are unequal — and the kept
width 561 differs from `originalHeight * targetRatio = 8991/16`, so the claim
that the crop trims an equal number of pixels from each side fails. -/
theorem crop_box_equal_margins_cex :
    crop_box 1000 999 1080 1920 = (219, 0, 780, 999) ∧
    (1080 : ℚ) / 1920 < (1000 : ℚ) / 999 ∧
    (219 : ℤ) ≠ 1000 - 780 ∧
    ((780 : ℚ) - 219) ≠ (999 : ℚ) * ((1080 : ℚ) / 1920) := by
  refine ⟨?_, by norm_num, by norm_num, by norm_num⟩
  norm_num [crop_box, pyTrunc]
  decide

/-- **C4 (amended).** For positive dimensions: if `originalRatio > targetRatio`
the compositor crops only horizontally, keeping the full height and a slice of
width `⌊originalHeight * targetRatio⌋`; otherwise it crops only vertically,
keeping the full width and a slice of height `⌊originalWidth / targetRatio⌋`.
The crop is centered up to one pixel: the left/top margin is
`(total trim).fdiv 2` and the opposite margin exceeds it by exactly
`(total trim) % 2 ∈ {0, 1}`, so the two margins are equal exactly when the
total trim is even. -/
theorem crop_box_centered (ow oh tw th : ℤ)
    (how : 0 < ow) (hoh : 0 < oh) (htw : 0 < tw) (hth : 0 < th) :
    ((tw : ℚ) / th < (ow : ℚ) / oh →
      crop_box ow oh tw th =
        ((ow - wide_new_width oh tw th).fdiv 2, 0,
         (ow - wide_new_width oh tw th).fdiv 2 + wide_new_width oh tw th, oh) ∧
      wide_new_width oh tw th = ⌊(oh : ℚ) * ((tw : ℚ) / th)⌋ ∧
      (ow - ((ow - wide_new_width oh tw th).fdiv 2 + wide_new_width oh tw th)) -
          (ow - wide_new_width oh tw th).fdiv 2 = (ow - wide_new_width oh tw th) % 2 ∧
      0 ≤ (ow - wide_new_width oh tw th) % 2 ∧
      (ow - wide_new_width oh tw th) % 2 ≤ 1) ∧
    (¬ ((tw : ℚ) / th < (ow : ℚ) / oh) →
      crop_box ow oh tw th =
        (0, (oh - tall_new_height ow tw th).fdiv 2, ow,
         (oh - tall_new_height ow tw th).fdiv 2 + tall_new_height ow tw th) ∧
      tall_new_height ow tw th = ⌊(ow : ℚ) / ((tw : ℚ) / th)⌋ ∧
      (oh - ((oh - tall_new_height ow tw th).fdiv 2 + tall_new_height ow tw th)) -
          (oh - tall_new_height ow tw th).fdiv 2 = (oh - tall_new_height ow tw th) % 2 ∧
      0 ≤ (oh - tall_new_height ow tw th) % 2 ∧
      (oh - tall_new_height ow tw th) % 2 ≤ 1) := by
  constructor
  · intro hgt
    have hm := fdiv_two_margin (ow - wide_new_width oh tw th)
    exact ⟨crop_box_wide hgt,
      pyTrunc_eq_floor (by positivity),
      by omega, hm.2.1, hm.2.2⟩
  · intro hle
    have hm := fdiv_two_margin (oh - tall_new_height ow tw th)
    exact ⟨crop_box_tall hle,
      pyTrunc_eq_floor (by positivity),
      by omega, hm.2.1, hm.2.2⟩

/-- Witness for C4 (amended): instantiation at a 1000×999 source and a
1080×1920 target, which takes the horizontal-crop branch. -/
theorem crop_box_centered_witness :
    (0 : ℤ) < 1000 ∧ (0 : ℤ) < 999 ∧ (0 : ℤ) < 1080 ∧ (0 : ℤ) < 1920 ∧
    (1080 : ℚ) / 1920 < (1000 : ℚ) / 999 ∧
    (crop_box 1000 999 1080 1920 =
        ((1000 - wide_new_width 999 1080 1920).fdiv 2, 0,
         (1000 - wide_new_width 999 1080 1920).fdiv 2 +
           wide_new_width 999 1080 1920, 999) ∧
      wide_new_width 999 1080 1920 = ⌊(999 : ℚ) * ((1080 : ℚ) / 1920)⌋ ∧
      (1000 - ((1000 - wide_new_width 999 1080 1920).fdiv 2 +
            wide_new_width 999 1080 1920)) -
          (1000 - wide_new_width 999 1080 1920).fdiv 2 =
        (1000 - wide_new_width 999 1080 1920) % 2 ∧
      0 ≤ (1000 - wide_new_width 999 1080 1920) % 2 ∧
      (1000 - wide_new_width 999 1080 1920) % 2 ≤ 1) :=
  ⟨by norm_num, by norm_num, by norm_num, by norm_num, by norm_num,
    (crop_box_centered 1000 999 1080 1920 (by norm_num) (by norm_num)
      (by norm_num) (by norm_num)).1 (by norm_num)⟩

/-- **C9.** For every image with positive width and height and every positive
target width and height, the crop rectangle `(left, upper, right, lower)`
computed by `process_image_for_vertical_video` lies entirely within the
original image bounds, and the crop dimensions never exceed the original
dimensions. -/
theorem crop_box_within_bounds (ow oh tw th : ℤ)
    (how : 0 < ow) (hoh : 0 < oh) (htw : 0 < tw) (hth : 0 < th) :
    0 ≤ ((process_image_for_vertical_video ow oh tw th).1).1 ∧
    0 ≤ ((process_image_for_vertical_video ow oh tw th).1).2.1 ∧
    ((process_image_for_vertical_video ow oh tw th).1).1 ≤
      ((process_image_for_vertical_video ow oh tw th).1).2.2.1 ∧
    ((process_image_for_vertical_video ow oh tw th).1).2.1 ≤
      ((process_image_for_vertical_video ow oh tw th).1).2.2.2 ∧
    ((process_image_for_vertical_video ow oh tw th).1).2.2.1 ≤ ow ∧
    ((process_image_for_vertical_video ow oh tw th).1).2.2.2 ≤ oh ∧
    ((process_image_for_vertical_video ow oh tw th).1).2.2.1 -
      ((process_image_for_vertical_video ow oh tw th).1).1 ≤ ow ∧
    ((process_image_for_vertical_video ow oh tw th).1).2.2.2 -
      ((process_image_for_vertical_video ow oh tw th).1).2.1 ≤ oh := by
  unfold process_image_for_vertical_video
  by_cases hgt : (tw : ℚ) / th < (ow : ℚ) / oh
  · rw [crop_box_wide hgt]
    have hnw0 : 0 ≤ wide_new_width oh tw th := pyTrunc_nonneg (by positivity)
    have hnwlt : wide_new_width oh tw th < ow := new_width_lt hoh htw hth hgt
    have hl0 : 0 ≤ (ow - wide_new_width oh tw th).fdiv 2 :=
      fdiv_two_nonneg (by omega)
    have hld : (ow - wide_new_width oh tw th).fdiv 2 ≤ ow - wide_new_width oh tw th :=
      fdiv_two_le (by omega)
    simp only
    omega
  · rw [crop_box_tall hgt]
    have hnh0 : 0 ≤ tall_new_height ow tw th := pyTrunc_nonneg (by positivity)
    have hnhle : tall_new_height ow tw th ≤ oh := new_height_le how hoh htw hth hgt
    have ht0 : 0 ≤ (oh - tall_new_height ow tw th).fdiv 2 :=
      fdiv_two_nonneg (by omega)
    have htd : (oh - tall_new_height ow tw th).fdiv 2 ≤ oh - tall_new_height ow tw th :=
      fdiv_two_le (by omega)
    simp only
    omega

/-- Witness for C9: instantiation at a 1000×2000 source and a 1080×1920
target, which takes the vertical-crop branch. -/
theorem crop_box_within_bounds_witness :
    (0 : ℤ) < 1000 ∧ (0 : ℤ) < 2000 ∧ (0 : ℤ) < 1080 ∧ (0 : ℤ) < 1920 ∧
    (0 ≤ ((process_image_for_vertical_video 1000 2000 1080 1920).1).1 ∧
      0 ≤ ((process_image_for_vertical_video 1000 2000 1080 1920).1).2.1 ∧
      ((process_image_for_vertical_video 1000 2000 1080 1920).1).1 ≤
        ((process_image_for_vertical_video 1000 2000 1080 1920).1).2.2.1 ∧
      ((process_image_for_vertical_video 1000 2000 1080 1920).1).2.1 ≤
        ((process_image_for_vertical_video 1000 2000 1080 1920).1).2.2.2 ∧
      ((process_image_for_vertical_video 1000 2000 1080 1920).1).2.2.1 ≤ 1000 ∧
      ((process_image_for_vertical_video 1000 2000 1080 1920).1).2.2.2 ≤ 2000 ∧
      ((process_image_for_vertical_video 1000 2000 1080 1920).1).2.2.1 -
        ((process_image_for_vertical_video 1000 2000 1080 1920).1).1 ≤ 1000 ∧
      ((process_image_for_vertical_video 1000 2000 1080 1920).1).2.2.2 -
        ((process_image_for_vertical_video 1000 2000 1080 1920).1).2.1 ≤ 2000) :=
  ⟨by norm_num, by norm_num, by norm_num, by norm_num,
    crop_box_within_bounds 1000 2000 1080 1920 (by norm_num) (by norm_num)
      (by norm_num) (by norm_num)⟩

/-! ## Video configuration and its defaults

`create_vertical_video` (lines 77–86) reads its configuration from an
optional dict with `config.get(key, default)`; the HTTP layer
(`app.py`, lines 163–171) always builds a fully-populated dict from the
request JSON with its own defaults. -/

/-- A resolved video configuration. -/
structure VideoConfig where
  width : ℤ
  height : ℤ
  bitrate : String
  frame_rate : ℤ
  crf : ℤ
  music_volume : ℚ
deriving DecidableEq

/-- A dict of optional configuration entries; `none` models an absent key,
so `d.get(key, default)` is `field.getD default`. -/
structure ConfigDict where
  width : Option ℤ
  height : Option ℤ
  bitrate : Option String
  frame_rate : Option ℤ
  crf : Option ℤ
  music_volume : Option ℚ
deriving DecidableEq

/-- The empty dict `{}` (all keys absent). -/
def empty_config : ConfigDict := ⟨none, none, none, none, none, none⟩

/-- Configuration resolution inside `create_vertical_video`
(`video_generator_migration.py`, lines 77–86): `config` may be `None`, and
each key falls back to the generator's defaults. -/
def resolve_config (config : Option ConfigDict) : VideoConfig :=
  let c := config.getD empty_config
  { width := c.width.getD 1080
    height := c.height.getD 1920
    bitrate := c.bitrate.getD "128k"
    frame_rate := c.frame_rate.getD 24
    crf := c.crf.getD 28
    music_volume := c.music_volume.getD (6 / 100) }

/-- Configuration construction in the HTTP handler `generate_video`
(`app.py`, lines 163–171): every key is filled from the request JSON with
the handler's own defaults, producing an always-complete dict. -/
def build_video_config (data : ConfigDict) : VideoConfig :=
  { width := data.width.getD 720
    height := data.height.getD 1280
    bitrate := data.bitrate.getD "64k"
    frame_rate := data.frame_rate.getD 15
    crf := data.crf.getD 32
    music_volume := data.music_volume.getD (6 / 100) }

/-- **C5 (counterexample).** A submission through the HTTP endpoint that
omits every configuration field runs with width 720, height 1280, bitrate
"64k", frame rate 15 and crf 32 — not the claimed 1080/1920/"128k"/24/28 —
because `generate_video` always passes a fully-populated config built with
its own lower defaults. -/
theorem config_defaults_cex :
    build_video_config empty_config ≠
      { width := 1080, height := 1920, bitrate := "128k",
        frame_rate := 24, crf := 28, music_volume := 6 / 100 } ∧
    build_video_config empty_config =
      { width := 720, height := 1280, bitrate := "64k",
        frame_rate := 15, crf := 32, music_volume := 6 / 100 } := by
  constructor
  · intro h
    have hw : (720 : ℤ) = 1080 := congrArg VideoConfig.width h
    exact absurd hw (by decide)
  · rfl

/-- **C5 (amended).** `create_vertical_video` called with `config = None`
applies the defaults 1080×1920, "128k", 24, 28, 0.06; but every submission
through the HTTP endpoint passes a fully-populated config whose defaults
for omitted fields are 720×1280, "64k", 15, 32, 0.06, so endpoint
submissions omitting these fields run with the latter values (only the
music-volume default 0.06 agrees between the two layers). -/
theorem config_defaults_amended :
    resolve_config none =
      { width := 1080, height := 1920, bitrate := "128k",
        frame_rate := 24, crf := 28, music_volume := 6 / 100 } ∧
    build_video_config empty_config =
      { width := 720, height := 1280, bitrate := "64k",
        frame_rate := 15, crf := 32, music_volume := 6 / 100 } ∧
    (build_video_config empty_config).music_volume =
      (resolve_config none).music_volume :=
  ⟨rfl, rfl, rfl⟩

/-! ## Job identifiers (`app.py`, lines 175–176)

`job_id = f"{int(time.time())}_{hash(image_url + audio_url) % 10000}"`:
the submission second and a hash residue of the concatenated URLs, both
rendered in decimal and joined by an underscore. -/

/-- The decimal digit character for `d < 10` (and `'9'` past the range,
which is never reached). -/
def digit_char (d : ℕ) : Char :=
  if d = 0 then '0' else if d = 1 then '1' else if d = 2 then '2'
  else if d = 3 then '3' else if d = 4 then '4' else if d = 5 then '5'
  else if d = 6 then '6' else if d = 7 then '7' else if d = 8 then '8'
  else '9'

/-- Value of an all-digit character list read in base 10. -/
def digits_value (cs : List Char) : ℕ :=
  cs.foldl (fun a c => 10 * a + (c.toNat - 48)) 0

/-- Decimal digits of a natural number, most significant first: the digit
string Python's `str(...)` renders. -/
def nat_to_chars (n : ℕ) : List Char :=
  if h : n < 10 then [digit_char n]
  else nat_to_chars (n / 10) ++ [digit_char (n % 10)]
termination_by n
decreasing_by
  exact Nat.div_lt_self (by omega) (by norm_num)

/-- Python `str(...)` of an integer as a character list: decimal digits,
with a leading `-` for negatives. -/
def int_to_chars (t : ℤ) : List Char :=
  if t < 0 then '-' :: nat_to_chars (-t).toNat else nat_to_chars t.toNat

/-- Python `str(...)` of an integer, as interpolated by the f-string at
`app.py` line 176. -/
def py_str_int (t : ℤ) : String := String.mk (int_to_chars t)

lemma nat_to_chars_lt {n : ℕ} (h : n < 10) : nat_to_chars n = [digit_char n] := by
  unfold nat_to_chars
  rw [dif_pos h]

lemma nat_to_chars_ge {n : ℕ} (h : ¬ n < 10) :
    nat_to_chars n = nat_to_chars (n / 10) ++ [digit_char (n % 10)] := by
  nth_rewrite 1 [nat_to_chars.eq_def]
  rw [dif_neg h]

lemma digit_char_toNat {d : ℕ} (h : d < 10) : (digit_char d).toNat = 48 + d := by
  interval_cases d <;> decide

lemma nat_to_chars_digits (n : ℕ) :
    ∀ c ∈ nat_to_chars n, 48 ≤ c.toNat ∧ c.toNat ≤ 57 := by
  induction n using Nat.strong_induction_on with
  | _ n ih =>
    intro c hc
    unfold nat_to_chars at hc
    split at hc
    · next h =>
      rw [List.mem_singleton] at hc
      subst hc
      rw [digit_char_toNat h]
      omega
    · next h =>
      rw [List.mem_append] at hc
      rcases hc with hl | hr
      · exact ih (n / 10) (Nat.div_lt_self (by omega) (by norm_num)) c hl
      · rw [List.mem_singleton] at hr
        subst hr
        rw [digit_char_toNat (Nat.mod_lt n (by norm_num))]
        omega

lemma nat_to_chars_ne_nil (n : ℕ) : nat_to_chars n ≠ [] := by
  unfold nat_to_chars
  split
  · exact List.cons_ne_nil _ _
  · intro h
    exact absurd (List.append_eq_nil.mp h).2 (List.cons_ne_nil _ _)

lemma digits_value_append (xs : List Char) (c : Char) :
    digits_value (xs ++ [c]) = 10 * digits_value xs + (c.toNat - 48) := by
  unfold digits_value
  rw [List.foldl_append]
  rfl

/-- The decimal rendering round-trips: reading the digits back gives the
number, so the rendering is injective. -/
lemma digits_value_nat_to_chars (n : ℕ) : digits_value (nat_to_chars n) = n := by
  induction n using Nat.strong_induction_on with
  | _ n ih =>
    unfold nat_to_chars
    split
    · next h =>
      show digits_value [digit_char n] = n
      unfold digits_value
      simp [digit_char_toNat h]
    · next h =>
      rw [digits_value_append,
        ih (n / 10) (Nat.div_lt_self (by omega) (by norm_num)),
        digit_char_toNat (Nat.mod_lt n (by norm_num))]
      omega

lemma nat_to_chars_inj {a b : ℕ} (h : nat_to_chars a = nat_to_chars b) :
    a = b := by
  rw [← digits_value_nat_to_chars a, ← digits_value_nat_to_chars b, h]

lemma int_to_chars_no_underscore (t : ℤ) : '_' ∉ int_to_chars t := by
  have h95 : ('_' : Char).toNat = 95 := by decide
  unfold int_to_chars
  split
  · intro hm
    rcases List.mem_cons.mp hm with h | h
    · exact absurd h (by decide)
    · have := nat_to_chars_digits _ _ h
      omega
  · intro hm
    have := nat_to_chars_digits _ _ hm
    omega

lemma int_to_chars_inj {a b : ℤ} (h : int_to_chars a = int_to_chars b) :
    a = b := by
  have h45 : ('-' : Char).toNat = 45 := by decide
  unfold int_to_chars at h
  by_cases ha : a < 0 <;> by_cases hb : b < 0
  · rw [if_pos ha, if_pos hb] at h
    injection h with _ h2
    have := nat_to_chars_inj h2
    omega
  · rw [if_pos ha, if_neg hb] at h
    cases hnc : nat_to_chars b.toNat with
    | nil => exact absurd hnc (nat_to_chars_ne_nil _)
    | cons c rest =>
      rw [hnc] at h
      injection h with h1 _
      have hd := nat_to_chars_digits b.toNat c
        (by rw [hnc]; exact List.mem_cons_self _ _)
      rw [← h1] at hd
      omega
  · rw [if_neg ha, if_pos hb] at h
    cases hnc : nat_to_chars a.toNat with
    | nil => exact absurd hnc (nat_to_chars_ne_nil _)
    | cons c rest =>
      rw [hnc] at h
      injection h with h1 _
      have hd := nat_to_chars_digits a.toNat c
        (by rw [hnc]; exact List.mem_cons_self _ _)
      rw [h1] at hd
      omega
  · rw [if_neg ha, if_neg hb] at h
    have := nat_to_chars_inj h
    omega

/-- If two underscore-joined strings agree and neither left part contains
an underscore, the left parts agree. -/
lemma underscore_split_inj : ∀ {d₁ d₂ e₁ e₂ : List Char},
    '_' ∉ d₁ → '_' ∉ d₂ → d₁ ++ '_' :: e₁ = d₂ ++ '_' :: e₂ → d₁ = d₂ := by
  intro d₁
  induction d₁ with
  | nil =>
    intro d₂ e₁ e₂ h1 h2 heq
    cases d₂ with
    | nil => rfl
    | cons c cs =>
      simp only [List.nil_append, List.cons_append] at heq
      injection heq with hc _
      subst hc
      exact absurd (List.mem_cons_self _ _) h2
  | cons c cs ih =>
    intro d₂ e₁ e₂ h1 h2 heq
    cases d₂ with
    | nil =>
      simp only [List.nil_append, List.cons_append] at heq
      injection heq with hc _
      subst hc
      exact absurd (List.mem_cons_self _ _) h1
    | cons c₂ cs₂ =>
      simp only [List.cons_append] at heq
      injection heq with hc htail
      rw [hc, ih (fun hm => h1 (List.mem_cons_of_mem _ hm))
        (fun hm => h2 (List.mem_cons_of_mem _ hm)) htail]

lemma data_append (a b : String) : (a ++ b).data = a.data ++ b.data := by
  cases a; cases b; rfl

/-- The two components of a job identifier: the submission second and
`hash(image_url + audio_url) % 10000`.  `py_hash` stands for Python's
builtin string `hash`, an unspecified but deterministic function of the
string within one process; no theorem below depends on its values. -/
def job_id_components (py_hash : String → ℤ) (now : ℤ)
    (image_url audio_url : String) : ℤ × ℤ :=
  (now, pyMod (py_hash (image_url ++ audio_url)) 10000)

/-- The job identifier string built at `app.py` line 176:
`f"{int(time.time())}_{hash(image_url + audio_url) % 10000}"`. -/
def make_job_id (py_hash : String → ℤ) (now : ℤ)
    (image_url audio_url : String) : String :=
  py_str_int (job_id_components py_hash now image_url audio_url).1 ++ "_" ++
    py_str_int (job_id_components py_hash now image_url audio_url).2

/-- The identifiers assigned to a sequence of submissions, each a triple of
submission second, image URL and audio URL. -/
def submission_ids (py_hash : String → ℤ)
    (subs : List (ℤ × String × String)) : List String :=
  subs.map fun s => make_job_id py_hash s.1 s.2.1 s.2.2

/-- An arbitrary concrete stand-in for Python's string hash, used only to
exhibit concrete identifier collisions. -/
def hash_model : String → ℤ := fun s => (s.length : ℤ) * 31

/-- Two concurrent submissions with identical image and audio URLs landing
in the same epoch second. -/
def duplicate_submissions : List (ℤ × String × String) :=
  [(1700, "http://img", "http://aud"), (1700, "http://img", "http://aud")]

/-- The identifier string is the decimal second, an underscore, and the
decimal hash residue. -/
lemma make_job_id_data (py_hash : String → ℤ) (t : ℤ) (i a : String) :
    (make_job_id py_hash t i a).data =
      int_to_chars t ++
        '_' :: int_to_chars (pyMod (py_hash (i ++ a)) 10000) := by
  show ((py_str_int t ++ "_") ++ py_str_int _).data = _
  rw [data_append, data_append]
  simp [py_str_int, job_id_components, List.append_assoc]

/-- **C6 (counterexample).** Two distinct submissions (indices 0 and 1 of
the submission list) that arrive in the same epoch second with identical
URLs receive the *same* job identifier, because the identifier is a pure
function of the second and the URL hash — the claimed uniqueness fails for
concurrent identical submissions. -/
theorem job_id_unique_cex :
    duplicate_submissions.length = 2 ∧
    (submission_ids hash_model duplicate_submissions).get? 0 =
      (submission_ids hash_model duplicate_submissions).get? 1 ∧
    (submission_ids hash_model duplicate_submissions).get? 0 ≠ none := by
  refine ⟨rfl, rfl, by decide⟩

/-- **C6 (amended).** Job identifiers are a pure function of the submission
second and the URL-hash residue: submissions in *different* epoch seconds
always receive distinct identifier strings (the decimal rendering of the
second, which is injective and underscore-free, precedes the first
underscore of the identifier), while submissions in the same second with
identical URLs collide (see the counterexample). -/
theorem job_id_distinct_seconds (py_hash : String → ℤ) (t₁ t₂ : ℤ)
    (i₁ a₁ i₂ a₂ : String) (hne : t₁ ≠ t₂) :
    make_job_id py_hash t₁ i₁ a₁ ≠ make_job_id py_hash t₂ i₂ a₂ := by
  intro heq
  apply hne
  have hdata := congrArg String.data heq
  rw [make_job_id_data, make_job_id_data] at hdata
  exact int_to_chars_inj
    (underscore_split_inj (int_to_chars_no_underscore t₁)
      (int_to_chars_no_underscore t₂) hdata)

/-- Witness for C6 (amended): submissions at seconds 1700 and 1701 with the
same URLs get the distinct identifier strings "1700_620" and "1701_620". -/
theorem job_id_distinct_seconds_witness :
    (1700 : ℤ) ≠ 1701 ∧
    make_job_id hash_model 1700 "http://img" "http://aud" = "1700_620" ∧
    make_job_id hash_model 1701 "http://img" "http://aud" = "1701_620" ∧
    make_job_id hash_model 1700 "http://img" "http://aud" ≠
      make_job_id hash_model 1701 "http://img" "http://aud" := by
  have hh : pyMod (hash_model ("http://img" ++ "http://aud")) 10000 = 620 := by
    decide
  have h1700 : int_to_chars 1700 = ['1', '7', '0', '0'] := by
    simp [int_to_chars, nat_to_chars_ge, nat_to_chars_lt, digit_char]
  have h1701 : int_to_chars 1701 = ['1', '7', '0', '1'] := by
    simp [int_to_chars, nat_to_chars_ge, nat_to_chars_lt, digit_char]
  have h620 : int_to_chars 620 = ['6', '2', '0'] := by
    simp [int_to_chars, nat_to_chars_ge, nat_to_chars_lt, digit_char]
  refine ⟨by decide, ?_, ?_,
    job_id_distinct_seconds hash_model 1700 1701 "http://img" "http://aud"
      "http://img" "http://aud" (by decide)⟩
  · apply String.ext
    rw [make_job_id_data, hh, h1700, h620]
    rfl
  · apply String.ext
    rw [make_job_id_data, hh, h1701, h620]
    rfl

/-! ## The pipeline: `create_vertical_video` (lines 72–198)

The pipeline is embedded over an *environment* recording the outcomes of
its external effects (network downloads, image decoding, the two
subprocesses, `os.unlink`).  The embedding returns the Python-level result
— the video bytes or the message of the raised exception — together with
the temporary files still on disk when the call ends.  Each invocation's
`NamedTemporaryFile` names are modelled by four fixed distinct paths. -/

/-- Raw byte blobs, abstracted. -/
abbrev Bytes := List ℕ

/-- Outcome of the `ffprobe` duration subprocess (line 103): either it
finished within its 10-second bound — with its captured stdout — or
`subprocess.run` raised `TimeoutExpired`.  A nonzero exit status does not
raise (no `check=True`); it only influences the captured stdout. -/
inductive ProbeOutcome
  | finished (stdout : String)
  | timedOut
deriving DecidableEq

/-- Outcome of the ffmpeg encoder subprocess (line 156): return code 0,
nonzero return code with diagnostic stderr, or `TimeoutExpired` after
`timeout_seconds`. -/
inductive EncoderOutcome
  | ok
  | failed (stderr : String)
  | timedOut
deriving DecidableEq

/-- A raised Python exception: `create_vertical_video`'s outer handler
(lines 194–198) distinguishes `subprocess.TimeoutExpired` from every other
`Exception`. -/
inductive PyExc
  | timeoutExpired
  | exc (msg : String)
deriving DecidableEq

/-- The environment of one `create_vertical_video` invocation.  The encoder
outcome may depend on the timeout it is run under. -/
structure PipelineEnv where
  image_download : Except String Bytes
  image_process : Except String Bytes
  audio_download : Except String Bytes
  probe : ProbeOutcome
  music_download : Except String Bytes
  encoder : ℤ → EncoderOutcome
  output_bytes : Bytes
  unlink_fails : String → Bool

/-- The invocation's temporary file for the processed image (line 96). -/
def image_path : String := "/tmp/image.jpg"

/-- The invocation's temporary file for the primary audio (line 100). -/
def audio_path : String := "/tmp/audio.mp3"

/-- The invocation's temporary file for the encoder output (line 123). -/
def output_path : String := "/tmp/output.mp4"

/-- The invocation's temporary file for the background music (line 136). -/
def music_path : String := "/tmp/music.mp3"

/-- `download_file` (lines 15–29): any underlying failure is re-raised as
`Exception("Download failed: ...")`. -/
def download_file (result : Except String Bytes) : Except PyExc Bytes :=
  match result with
  | .ok data => .ok data
  | .error e => .error (.exc ("Download failed: " ++ e))

/-- `process_image_for_vertical_video`'s error wrapping (lines 67–70): any
decode/crop/resize/encode failure is re-raised as
`Exception("Image processing error: ...")`. -/
def process_image_step (result : Except String Bytes) : Except PyExc Bytes :=
  match result with
  | .ok data => .ok data
  | .error e => .error (.exc ("Image processing error: " ++ e))

/-- Python `str.strip()` as a character-list operation. -/
def py_strip (s : String) : List Char :=
  ((s.data.dropWhile Char.isWhitespace).reverse.dropWhile Char.isWhitespace).reverse

/-- Unsigned part of a Python `float(...)` decimal literal: digits with an
optional fractional part. -/
def parse_unsigned (cs : List Char) : Option ℚ :=
  let ip := cs.takeWhile Char.isDigit
  let rest := cs.dropWhile Char.isDigit
  match rest with
  | [] => if ip.isEmpty then none else some (digits_value ip : ℚ)
  | '.' :: fp =>
    if fp.all Char.isDigit && !(ip.isEmpty && fp.isEmpty) then
      some ((digits_value ip : ℚ) + (digits_value fp : ℚ) / (10 : ℚ) ^ fp.length)
    else none
  | _ => none

/-- Model of Python's `float(...)` on the decimal literals `ffprobe` emits:
optional sign, digits, optional fractional part.  Exponent forms, `inf` and
`nan` are not produced by `ffprobe`'s duration output and are mapped to
`none` — a `ValueError`, like any other malformed input. -/
def parse_float (cs : List Char) : Option ℚ :=
  match cs with
  | '-' :: rest => (parse_unsigned rest).map (fun q => -q)
  | '+' :: rest => parse_unsigned rest
  | _ => parse_unsigned cs

/-- The duration-recovery step (lines 109–116):
`float(duration_result.stdout.strip())` under a bare `except:` that falls
back to 60.0 seconds. -/
def parse_probe_duration (stdout : String) : ℚ :=
  match parse_float (py_strip stdout) with
  | some d => d
  | none => 60

/-- The `finally` block (lines 180–192): unlink the image, audio and output
temp files, and the music temp file when it was created; each `os.unlink`
failure is swallowed by `except: pass`. -/
def cleanup (unlink_fails : String → Bool) (music_created : Bool)
    (fs : List String) : List String :=
  let targets := [image_path, audio_path, output_path] ++
    (if music_created then [music_path] else [])
  fs.filter fun f => !(targets.contains f && !unlink_fails f)

/-- Running the encoder subprocess and reading back the output
(lines 155–177): a nonzero return code raises
`Exception("Video generation failed: <stderr>")`, exceeding the bound
raises `TimeoutExpired`, success reads the output file. -/
def run_encoder_step (encoder : ℤ → EncoderOutcome) (output_bytes : Bytes)
    (timeout : ℤ) : Except PyExc Bytes :=
  match encoder timeout with
  | .ok => .ok output_bytes
  | .failed stderr => .error (.exc ("Video generation failed: " ++ stderr))
  | .timedOut => .error .timeoutExpired

/-- The body of the inner `try` (lines 128–177): optionally download the
background music and write its temp file, then run the encoder.  Returns
the block's outcome together with whether the music temp file was
created. -/
def encode_block (music_download : Except String Bytes)
    (encoder : ℤ → EncoderOutcome) (output_bytes : Bytes)
    (has_background_music : Bool) (timeout : ℤ) :
    Except PyExc Bytes × Bool :=
  if has_background_music then
    match download_file music_download with
    | .error e => (.error e, false)
    | .ok _ => (run_encoder_step encoder output_bytes timeout, true)
  else (run_encoder_step encoder output_bytes timeout, false)

/-- `create_vertical_video` (lines 72–198).  The downloads, the image
processing and the `ffprobe` run (lines 88–120) happen *before* the inner
`try`/`finally`, so no cleanup handler guards them; the output temp file is
created at lines 123–124, and the inner `try`/`finally` (lines 127–192)
guards the music download and the encoder run.  The outer handler
(lines 194–198) maps `TimeoutExpired` to "Video generation timed out" and
every other exception `e` to "Video generation failed: " + str(e). -/
def create_vertical_video (env : PipelineEnv) (has_background_music : Bool) :
    Except String Bytes × List String :=
  let result : Except PyExc Bytes × List String :=
    match download_file env.image_download with
    | .error e => (.error e, [])
    | .ok _image_data =>
      match process_image_step env.image_process with
      | .error e => (.error e, [])
      | .ok _processed =>
        match download_file env.audio_download with
        | .error e => (.error e, [])
        | .ok _audio_data =>
          -- temp files for the processed image and the audio (lines 96–102)
          let fs : List String := [image_path, audio_path]
          match env.probe with
          | .timedOut => (.error .timeoutExpired, fs)
          | .finished stdout =>
            let audio_duration := parse_probe_duration stdout
            let timeout := timeout_seconds audio_duration
            -- output temp file (lines 123–124)
            let fs := fs ++ [output_path]
            let block := encode_block env.music_download env.encoder
              env.output_bytes has_background_music timeout
            let fs := fs ++ (if block.2 then [music_path] else [])
            (block.1, cleanup env.unlink_fails block.2 fs)
  match result with
  | (.ok v, fs) => (.ok v, fs)
  | (.error .timeoutExpired, fs) => (.error "Video generation timed out", fs)
  | (.error (.exc m), fs) => (.error ("Video generation failed: " ++ m), fs)

/-! ## The ffmpeg audio-mix command (lines 139–152)

With background music, the command's `-filter_complex` graph scales input 2
(the music file) by `music_volume` and mixes it with input 1 (the primary
audio) under `amix=inputs=2:duration=first:dropout_transition=0`. -/

/-- The constant `amix` clause of the filter graph (line 146): primary
audio `[1:a]` first, gained music `[bg]` second. -/
def amix_clause : String :=
  "[1:a][bg]amix=inputs=2:duration=first:dropout_transition=0[audio]"

/-- The `-filter_complex` argument built by f-string interpolation of
`music_volume` (line 146). -/
def filter_complex_arg (music_volume : String) : String :=
  "[2:a]volume=" ++ music_volume ++
    "[bg];[1:a][bg]amix=inputs=2:duration=first:dropout_transition=0[audio]"

/-- The ffmpeg command with background music (lines 140–152), with the
numeric configuration values already rendered to strings as Python's
f-strings and `str(...)` do. -/
def ffmpeg_cmd_with_music (image_file audio_file music_file output_file
    music_volume crf frame_rate bitrate : String) : List String :=
  ["ffmpeg", "-y",
   "-loop", "1", "-i", image_file,
   "-i", audio_file,
   "-i", music_file,
   "-filter_complex", filter_complex_arg music_volume,
   "-map", "0:v", "-map", "[audio]",
   "-c:v", "libx264", "-preset", "fast",
   "-crf", crf, "-r", frame_rate,
   "-c:a", "aac", "-b:a", bitrate,
   "-shortest", "-movflags", "faststart",
   output_file]

/-- The value following the first occurrence of `flag` in an argument
list. -/
def arg_after (flag : String) : List String → Option String
  | [] => none
  | [_] => none
  | x :: y :: rest =>
    if x = flag then some y else arg_after flag (y :: rest)

/-- The input files of an ffmpeg command: every value following `-i`. -/
def input_files : List String → List String
  | [] => []
  | [_] => []
  | x :: y :: rest =>
    if x = "-i" then y :: input_files rest else input_files (y :: rest)

/-- Split a character list at every occurrence of `sep`. -/
def split_on_char (sep : Char) : List Char → List (List Char)
  | [] => [[]]
  | c :: cs =>
    if c = sep then [] :: split_on_char sep cs
    else
      match split_on_char sep cs with
      | [] => [[c]]
      | g :: gs => (c :: g) :: gs

/-- Split a character list around the first occurrence of the separator
sequence `sep`, if any. -/
def split_first (sep : List Char) : List Char → Option (List Char × List Char)
  | [] => none
  | c :: cs =>
    if sep.isPrefixOf (c :: cs) then some ([], (c :: cs).drop sep.length)
    else
      match split_first sep cs with
      | some (a, b) => some (c :: a, b)
      | none => none

/-- The parsed parameters of an `amix` filter clause. -/
structure AmixSettings where
  input_labels : List String
  inputs : Option String
  duration : Option String
  dropout_transition : Option String
deriving DecidableEq

/-- Parse a `key=value` parameter. -/
def parse_kv (cs : List Char) : Option (String × String) :=
  match split_first ['='] cs with
  | some (k, v) => some (String.mk k, String.mk v)
  | none => none

/-- Parse the `[label]` input pads preceding a filter name. -/
def parse_labels (cs : List Char) : List String :=
  ((split_on_char ']' cs).filter (fun g => !g.isEmpty)).map
    (fun g => String.mk (g.dropWhile (fun c => c = '[')))

/-- Parse an `amix` filter clause into its input pads and parameters. -/
def parse_amix (s : String) : Option AmixSettings :=
  match split_first ['a', 'm', 'i', 'x', '='] s.data with
  | none => none
  | some (before, after) =>
    let params := after.takeWhile (fun c => c ≠ '[')
    let kvs := (split_on_char ':' params).filterMap parse_kv
    some { input_labels := parse_labels before,
           inputs := kvs.lookup "inputs",
           duration := kvs.lookup "duration",
           dropout_transition := kvs.lookup "dropout_transition" }

/-- The duration policy of ffmpeg's `amix` filter, modelled from the spec:
`first` stops when the first input ends; `shortest` and `longest` take the
minimum and maximum of the input durations.  With
`dropout_transition=0` there is no fade, so the mixed output's length is
exactly the policy's duration. -/
def amix_output_length (duration_policy : String)
    (first_len other_len : ℚ) : ℚ :=
  if duration_policy = "first" then first_len
  else if duration_policy = "shortest" then min first_len other_len
  else max first_len other_len

/-- The filter argument always starts with the character `[`, so it is
never confused with an ffmpeg flag while scanning the command. -/
lemma filter_complex_arg_head (music_volume : String) :
    ((filter_complex_arg music_volume).data).head? = some '[' := by
  cases music_volume with
  | mk l => rfl

lemma filter_complex_arg_ne_i (music_volume : String) :
    filter_complex_arg music_volume ≠ "-i" := by
  intro h
  have := filter_complex_arg_head music_volume
  rw [h] at this
  exact absurd this (by decide)

/-- **C7.** For every job with a background-music URL: the planned encoder
command declares the image, primary audio and music files as inputs 0, 1
and 2; its filter graph scales input 2 (the music) by the `music_volume`
gain and feeds pads `[1:a]` (the primary audio) *first* and the gained
music second into a two-input `amix` whose duration policy is `first`
(stop when the first, primary input ends) with `dropout_transition=0`; and
under that policy the mixed output's length equals the primary audio's
length regardless of the music track's length. -/
theorem music_mix_policy (image_file audio_file music_file output_file
    music_volume crf frame_rate bitrate : String)
    (primary_len music_len : ℚ)
    (hi2 : image_file ≠ "-filter_complex")
    (ha2 : audio_file ≠ "-filter_complex")
    (hm2 : music_file ≠ "-filter_complex")
    (hc : crf ≠ "-i") (hf : frame_rate ≠ "-i") (hb : bitrate ≠ "-i") :
    input_files (ffmpeg_cmd_with_music image_file audio_file music_file
        output_file music_volume crf frame_rate bitrate) =
      [image_file, audio_file, music_file] ∧
    arg_after "-filter_complex" (ffmpeg_cmd_with_music image_file audio_file
        music_file output_file music_volume crf frame_rate bitrate) =
      some (filter_complex_arg music_volume) ∧
    filter_complex_arg music_volume =
      ("[2:a]volume=" ++ music_volume) ++ ("[bg];" ++ amix_clause) ∧
    parse_amix amix_clause =
      some { input_labels := ["1:a", "bg"], inputs := some "2",
             duration := some "first", dropout_transition := some "0" } ∧
    amix_output_length "first" primary_len music_len = primary_len := by
  refine ⟨?_, ?_, by congr 1, by decide, rfl⟩
  · simp [ffmpeg_cmd_with_music, input_files, hc, hf, hb,
      filter_complex_arg_ne_i music_volume]
  · simp [ffmpeg_cmd_with_music, arg_after, hi2, ha2, hm2]

/-- Witness for C7: the concrete default configuration rendering, a
5-second primary audio and a 20-second music track. -/
theorem music_mix_policy_witness :
    ("/tmp/image.jpg" : String) ≠ "-filter_complex" ∧
    (input_files (ffmpeg_cmd_with_music "/tmp/image.jpg" "/tmp/audio.mp3"
          "/tmp/music.mp3" "/tmp/output.mp4" "0.06" "28" "24" "128k") =
        ["/tmp/image.jpg", "/tmp/audio.mp3", "/tmp/music.mp3"] ∧
      arg_after "-filter_complex" (ffmpeg_cmd_with_music "/tmp/image.jpg"
          "/tmp/audio.mp3" "/tmp/music.mp3" "/tmp/output.mp4" "0.06" "28"
          "24" "128k") =
        some (filter_complex_arg "0.06") ∧
      filter_complex_arg "0.06" =
        ("[2:a]volume=" ++ "0.06") ++ ("[bg];" ++ amix_clause) ∧
      parse_amix amix_clause =
        some { input_labels := ["1:a", "bg"], inputs := some "2",
               duration := some "first", dropout_transition := some "0" } ∧
      amix_output_length "first" 5 20 = 5) :=
  ⟨by decide,
    music_mix_policy "/tmp/image.jpg" "/tmp/audio.mp3" "/tmp/music.mp3"
      "/tmp/output.mp4" "0.06" "28" "24" "128k" 5 20
      (by decide) (by decide) (by decide) (by decide) (by decide) (by decide)⟩

/-! ## Job orchestrator (`app.py`)

`generate_video` (lines 143–204) records a fresh job as `processing` and
spawns `generate_video_async` (lines 100–141), which performs exactly one
further write to `video_results[job_id]`: `completed` with the video URL
and byte size, or `failed` with an error message.  `check_status`
(lines 206–220) is a read-only lookup. -/

/-- Job status strings of `app.py`. -/
inductive JobStatus
  | processing
  | completed
  | failed
deriving DecidableEq

/-- One entry of the in-memory `video_results` table: the union of the
fields the three assignment sites store. -/
structure JobRecord where
  status : JobStatus
  message : Option String
  video_url : Option String
  file_size : Option ℕ
  timestamp : Option String
  error : Option String
deriving DecidableEq

/-- The record stored at submission time (`app.py`, lines 180–184). -/
def initial_record : JobRecord :=
  { status := .processing, message := some "Video generation in progress",
    video_url := none, file_size := none, timestamp := none, error := none }

/-- Outcome of the background pipeline run as observed by
`generate_video_async`: the returned video bytes, or a raised exception's
message. -/
inductive PipelineOutcome
  | ok (video_data : Bytes)
  | exn (msg : String)

/-- The single write `generate_video_async` performs after creation
(lines 100–141): empty data fails, data completes with the persisted
file's URL and size, an exception fails with its message. -/
def generate_video_async (job_id : String) (timestamp : String)
    (outcome : PipelineOutcome) : JobRecord :=
  match outcome with
  | .ok video_data =>
    if video_data.isEmpty then
      { status := .failed, message := none, video_url := none,
        file_size := none, timestamp := none,
        error := some "Failed to generate video" }
    else
      { status := .completed, message := none,
        video_url := some ("/static/videos/video_" ++ job_id ++ "_" ++
          timestamp ++ ".mp4"),
        file_size := some video_data.length, timestamp := some timestamp,
        error := none }
  | .exn msg =>
    { status := .failed, message := none, video_url := none,
      file_size := none, timestamp := none, error := some msg }

/-- The successive states of one job's record: created as
`initial_record`, then overwritten exactly once by the background task. -/
def job_trace (job_id : String) (timestamp : String)
    (outcome : PipelineOutcome) : List JobRecord :=
  [initial_record, generate_video_async job_id timestamp outcome]

/-- A record carries a result exactly when one of the result-bearing
fields is present. -/
def has_result (r : JobRecord) : Prop :=
  r.video_url ≠ none ∨ r.file_size ≠ none ∨ r.timestamp ≠ none

/-- The invariant claimed for every record: result fields and the error
field are mutually exclusive, and both absent while `processing`. -/
def record_invariant (r : JobRecord) : Prop :=
  (r.status = .processing → r.video_url = none ∧ r.file_size = none ∧
    r.timestamp = none ∧ r.error = none) ∧
  ¬ (has_result r ∧ r.error ≠ none)

/-- The only transitions of the job state machine. -/
def allowed_transition (r₁ r₂ : JobRecord) : Prop :=
  r₁.status = .processing ∧
    (r₂.status = .completed ∨ r₂.status = .failed)

/-- **C8.** Every job starts as `processing` and its record is mutated
exactly once after creation (the trace has exactly the created record and
one terminal record); the only transitions are
`processing → completed` and `processing → failed`; and every record in
the trace satisfies the invariant: result fields and the error field are
mutually exclusive and both absent while the status is `processing`. -/
theorem job_lifecycle (job_id : String) (timestamp : String)
    (outcome : PipelineOutcome) :
    (job_trace job_id timestamp outcome).length = 2 ∧
    (job_trace job_id timestamp outcome).head? = some initial_record ∧
    initial_record.status = .processing ∧
    List.Chain' allowed_transition (job_trace job_id timestamp outcome) ∧
    ∀ r ∈ job_trace job_id timestamp outcome, record_invariant r := by
  refine ⟨rfl, rfl, rfl, ?_, ?_⟩
  · cases outcome with
    | ok video_data =>
      by_cases hd : video_data.isEmpty <;>
        simp [job_trace, generate_video_async, allowed_transition,
          initial_record, hd]
    | exn msg =>
      simp [job_trace, generate_video_async, allowed_transition,
        initial_record]
  · intro r hr
    simp only [job_trace, List.mem_cons, List.not_mem_nil, or_false] at hr
    rcases hr with rfl | rfl
    · simp [record_invariant, has_result, initial_record]
    · cases outcome with
      | ok video_data =>
        by_cases hd : video_data.isEmpty <;>
          simp [generate_video_async, record_invariant, has_result, hd]
      | exn msg =>
        simp [generate_video_async, record_invariant, has_result]

/-! ## Status queries (`app.py`, lines 206–220) -/

/-- `check_status`: look the job up in `video_results`; unknown ids
produce the 404 "Job not found" response, known ids return the stored
record.  The `completed`/`failed` branch (lines 213–217) is a `pass`:
it performs no table mutation.  The function returns the response and the
table after the call. -/
def check_status (video_results : List (String × JobRecord))
    (job_id : String) : Except String JobRecord × List (String × JobRecord) :=
  match video_results.lookup job_id with
  | none => (.error "Job not found", video_results)
  | some result =>
    if result.status = .completed ∨ result.status = .failed then
      -- Keep result for a bit longer in case of retries: `pass`
      (.ok result, video_results)
    else
      (.ok result, video_results)

/-- **C10.** A status query never modifies the job table: for every table
and every job identifier — known or unknown, terminal or still processing
— the table after `check_status` is exactly the table before, so the
cleanup branch for completed/failed jobs performs no mutation. -/
theorem check_status_no_mutation (video_results : List (String × JobRecord))
    (job_id : String) :
    (check_status video_results job_id).2 = video_results := by
  unfold check_status
  cases video_results.lookup job_id with
  | none => rfl
  | some result =>
    by_cases h : result.status = .completed ∨ result.status = .failed <;>
      simp [h]

/-- An invocation whose downloads and image processing succeed but whose
`ffprobe` subprocess exceeds its 10-second bound. -/
def env_probe_timeout : PipelineEnv :=
  { image_download := .ok [1], image_process := .ok [2],
    audio_download := .ok [3], probe := .timedOut,
    music_download := .ok [4], encoder := fun _ => .ok,
    output_bytes := [9], unlink_fails := fun _ => false }

/-- A fully healthy invocation: downloads succeed, `ffprobe` reports 3.5
seconds, the encoder exits 0 and every `os.unlink` succeeds. -/
def env_all_ok : PipelineEnv :=
  { image_download := .ok [1], image_process := .ok [2],
    audio_download := .ok [3], probe := .finished "3.500000\n",
    music_download := .ok [4], encoder := fun _ => .ok,
    output_bytes := [9], unlink_fails := fun _ => false }

/-- An invocation identical to `env_probe_timeout` except that the probe
finishes with unparseable stdout (as after a nonzero `ffprobe` exit). -/
def env_probe_garbage : PipelineEnv :=
  { image_download := .ok [1], image_process := .ok [2],
    audio_download := .ok [3], probe := .finished "N/A\n",
    music_download := .ok [4], encoder := fun _ => .ok,
    output_bytes := [9], unlink_fails := fun _ => false }

/-- **C1 (counterexample).** When the `ffprobe` subprocess times out, the
invocation exits through the outer handler with
"Video generation timed out" while the image and audio temporary files are
still on disk: the probe runs *before* the `try`/`finally` cleanup block,
so this raised-error exit path removes nothing. -/
theorem cleanup_every_path_cex :
    (create_vertical_video env_probe_timeout false).2 = [image_path, audio_path] ∧
    [image_path, audio_path] ≠ ([] : List String) ∧
    (create_vertical_video env_probe_timeout false).1 =
      Except.error "Video generation timed out" := by
  refine ⟨by decide, by decide, rfl⟩

lemma cleanup_all_ok_false :
    cleanup (fun _ => false) false [image_path, audio_path, output_path] = [] := by
  decide

lemma cleanup_all_ok_true :
    cleanup (fun _ => false) true
      [image_path, audio_path, output_path, music_path] = [] := by
  decide

/-- **C1 (amended).** On every exit path that does not raise before the
inner `try` block — that is, whenever the `ffprobe` subprocess does not
time out — every temporary file of the invocation is removed (success,
encoder failure, encoder timeout, music-download failure), provided the
removals themselves succeed; and a failing `os.unlink` never changes the
invocation's result: the primary outcome is identical under any
`unlink` behaviour.  A probe-subprocess timeout, however, exits with the
image and audio temp files still on disk (see the counterexample). -/
theorem cleanup_every_path_amended (env : PipelineEnv)
    (has_background_music : Bool) (g : String → Bool)
    (hprobe : env.probe ≠ ProbeOutcome.timedOut)
    (hunlink : env.unlink_fails = fun _ => false) :
    (create_vertical_video env has_background_music).2 = [] ∧
    (create_vertical_video { env with unlink_fails := g }
        has_background_music).1 =
      (create_vertical_video env has_background_music).1 := by
  obtain ⟨idl, ipr, adl, pr, mdl, enc, ob, uf⟩ := env
  simp only at hunlink
  subst hunlink
  cases idl with
  | error e => exact ⟨rfl, rfl⟩
  | ok d₁ =>
  cases ipr with
  | error e => exact ⟨rfl, rfl⟩
  | ok d₂ =>
  cases adl with
  | error e => exact ⟨rfl, rfl⟩
  | ok d₃ =>
  cases pr with
  | timedOut => exact absurd rfl hprobe
  | finished s =>
  cases has_background_music with
  | false =>
    cases henc : enc (timeout_seconds (parse_probe_duration s)) <;>
      refine ⟨?_, ?_⟩ <;>
      simp [create_vertical_video, encode_block, run_encoder_step,
        download_file, process_image_step, henc, cleanup_all_ok_false,
        cleanup_all_ok_true]
  | true =>
    cases mdl with
    | error e =>
      refine ⟨?_, ?_⟩ <;>
        simp [create_vertical_video, encode_block, run_encoder_step,
          download_file, process_image_step, cleanup_all_ok_false,
          cleanup_all_ok_true]
    | ok d₄ =>
      cases henc : enc (timeout_seconds (parse_probe_duration s)) <;>
        refine ⟨?_, ?_⟩ <;>
        simp [create_vertical_video, encode_block, run_encoder_step,
          download_file, process_image_step, henc, cleanup_all_ok_false,
          cleanup_all_ok_true]

/-- Witness for C1 (amended): the healthy invocation with background music,
probed against a hostile `unlink` behaviour that fails on every path. -/
theorem cleanup_every_path_witness :
    env_all_ok.probe ≠ ProbeOutcome.timedOut ∧
    env_all_ok.unlink_fails = (fun _ => false) ∧
    ((create_vertical_video env_all_ok true).2 = [] ∧
      (create_vertical_video { env_all_ok with unlink_fails := fun _ => true }
          true).1 =
        (create_vertical_video env_all_ok true).1) :=
  ⟨by decide, rfl,
    cleanup_every_path_amended env_all_ok true (fun _ => true) (by decide) rfl⟩

/-- **C2 (counterexample).** An invocation whose downloads all succeed and
whose encoder would exit 0, but whose `ffprobe` subprocess exceeds its
10-second bound, ends in a raised exception — the probe step aborts the
pipeline instead of falling back to 60.0 seconds, because only the
`float(...)` parse is wrapped in the bare `except:`, not the
`subprocess.run(..., timeout=10)` call itself. -/
theorem probe_soft_failure_cex :
    (create_vertical_video env_probe_timeout false).1 =
      Except.error "Video generation timed out" ∧
    (create_vertical_video env_probe_timeout false).1 ≠
      Except.ok env_probe_timeout.output_bytes := by
  have h1 : (create_vertical_video env_probe_timeout false).1 =
      Except.error "Video generation timed out" := rfl
  refine ⟨h1, ?_⟩
  rw [h1]
  exact fun h => Except.noConfusion h

/-- **C2 (amended).** On any *parse* failure — including the empty or
garbage stdout left by a failing (nonzero-exit) `ffprobe` — the duration
step yields exactly 60.0 seconds and the pipeline continues, behaving
exactly as if the probe had reported 60 seconds.  A probe-subprocess
*timeout*, however, raises and aborts the pipeline (see the
counterexample). -/
theorem probe_soft_failure_amended (env : PipelineEnv)
    (has_background_music : Bool) (s : String)
    (hprobe : env.probe = ProbeOutcome.finished s)
    (hparse : parse_float (py_strip s) = none) :
    parse_probe_duration s = 60 ∧
    create_vertical_video env has_background_music =
      create_vertical_video { env with probe := .finished "60" }
        has_background_music := by
  have hdur : parse_probe_duration s = 60 := by
    unfold parse_probe_duration
    rw [hparse]
  have hdur60 : parse_probe_duration "60" = 60 := by decide
  refine ⟨hdur, ?_⟩
  obtain ⟨idl, ipr, adl, pr, mdl, enc, ob, uf⟩ := env
  simp only at hprobe
  subst hprobe
  cases idl with
  | error e => rfl
  | ok d₁ =>
  cases ipr with
  | error e => rfl
  | ok d₂ =>
  cases adl with
  | error e => rfl
  | ok d₃ =>
  simp only [create_vertical_video, hdur, hdur60]

/-- Witness for C2 (amended): "N/A" stdout (a failed probe) makes the
pipeline behave exactly like a 60-second probe and still succeed. -/
theorem probe_soft_failure_witness :
    env_probe_garbage.probe = ProbeOutcome.finished "N/A\n" ∧
    parse_float (py_strip "N/A\n") = none ∧
    (parse_probe_duration "N/A\n" = 60 ∧
      create_vertical_video env_probe_garbage true =
        create_vertical_video { env_probe_garbage with probe := .finished "60" }
          true) :=
  ⟨rfl, by decide,
    probe_soft_failure_amended env_probe_garbage true "N/A\n" rfl (by decide)⟩

end VideoGen
